import Mathlib

/-!
Verification of the layout-aware ONNX-to-Keras operator-translation engine
(`onnx2keras.py`) against its natural-language specification.

The Python source is shallowly embedded: tensors become a shape together with
a flat row-major data function, the `DataFormat` class hierarchy becomes a
three-constructor inductive with an explicit subclass relation, Python
exceptions become an error inductive (named after the specification's error
taxonomy; each constructor's doc comment records the Python exception it
models), and every operator implementation becomes a total Lean function
returning `Except`.
-/

set_option autoImplicit false

namespace Onnx2Keras

/-- The specification's error taxonomy, covering the Python exceptions raised
by the translation core. -/
inductive TranslationError where
  /-- `AttributeError` from `getattr(self, 'op_' + op_type.lower())` on an
  unregistered operator: the payload is the missing attribute name. -/
  | unsupportedOperator (name : String)
  /-- `NotImplementedError` raised inside a recognized operator
  implementation for an unsupported attribute/shape combination. -/
  | notImplemented
  /-- `AssertionError` from `assert len(tensor.shape) == 4` in
  `ensure_data_format` (the spec's rank-violation error). -/
  | shapeError
  /-- `NotImplementedError` from the final `else` of `ensure_data_format`:
  no legal layout path between the two formats. -/
  | unsupportedConversion
  /-- `AssertionError` from `assert len(output_tensors) == len(node.output)`
  in the graph translation driver. -/
  | graphIntegrityError
  /-- Any other `AssertionError` inside an operator implementation. -/
  | assertionError
  /-- `KeyError` from `tensors[i]` on an unbound tensor name. -/
  | nameError (name : String)
  /-- `IndexError` from indexing an empty tuple such as `starts[0]`. -/
  | indexError
  /-- `ValueError` from tuple unpacking `n, h, w, f = shape` when the rank
  is not 4. -/
  | valueError
  /-- `ZeroDivisionError` from `weights.shape[3] // group` with `group == 0`. -/
  | zeroDivisionError
  deriving DecidableEq, Repr

/-- The `DataFormat` class hierarchy: `OnnxConstant` subclasses `OnnxTensor`
subclasses `DataFormat`; `InterleavedImageBatch` subclasses `DataFormat`. -/
inductive Fmt where
  | onnxTensor
  | onnxConstant
  | interleaved
  deriving DecidableEq, Repr

/-- Python `issubclass` on the three concrete `DataFormat` classes. -/
def Fmt.issubclass : Fmt → Fmt → Bool
  | .onnxTensor, .onnxTensor => true
  | .onnxConstant, .onnxConstant => true
  | .onnxConstant, .onnxTensor => true
  | .interleaved, .interleaved => true
  | _, _ => false

/-- A tensor: its shape and its contents as a flat row-major data function
(only indices below the product of the dimensions are meaningful), tagged
with its `data_format`. -/
structure Tensor where
  shape : List Nat
  data : Nat → Int
  fmt : Fmt

/-- Row-major flat index of the multi-index `(i0, i1, i2, i3)` in a rank-4
tensor whose trailing dimensions are `s1, s2, s3`. -/
def flat4 (s1 s2 s3 i0 i1 i2 i3 : Nat) : Nat :=
  ((i0 * s1 + i1) * s2 + i2) * s3 + i3

/-- Flat data function of `transpose(t, [0, 2, 3, 1])` applied to a tensor of
shape `[n, c, h, w]` (the result has shape `[n, h, w, c]`): position
`(j0, j1, j2, j3)` of the result holds position `(j0, j3, j1, j2)` of the
input. -/
def transpose0231Data (c h w : Nat) (d : Nat → Int) : Nat → Int := fun k =>
  let j3 := k % c
  let r1 := k / c
  let j2 := r1 % w
  let r2 := r1 / w
  let j1 := r2 % h
  let j0 := r2 / h
  d (flat4 c h w j0 j3 j1 j2)

/-- Flat data function of `transpose(t, [0, 3, 1, 2])` applied to a tensor of
shape `[n, h, w, c]` (the result has shape `[n, c, h, w]`): position
`(i0, i1, i2, i3)` of the result holds position `(i0, i2, i3, i1)` of the
input. -/
def transpose0312Data (h w c : Nat) (d : Nat → Int) : Nat → Int := fun k =>
  let i3 := k % w
  let r1 := k / w
  let i2 := r1 % h
  let r2 := r1 / h
  let i1 := r2 % c
  let i0 := r2 / c
  d (flat4 h w c i0 i2 i3 i1)

/-- `assert len(shape) == 4` followed by unpacking `a, b, c, d = shape`. -/
def shape4? : List Nat → Option (Nat × Nat × Nat × Nat)
  | [a, b, c, d] => some (a, b, c, d)
  | _ => none

/-- Shallow embedding of `ensure_data_format(tensor, format)`.  The second
component of a successful result counts the `OptimizationMissingWarning`
diagnostics emitted by the call (the source emits at most one). -/
def ensure_data_format (t : Tensor) (target : Fmt) :
    Except TranslationError (Tensor × Nat) :=
  if t.fmt.issubclass target then .ok (t, 0)
  else if t.fmt = .onnxConstant ∧ target = .interleaved then
    match shape4? t.shape with
    | some (n, c, h, w) =>
        .ok (⟨[n, h, w, c], transpose0231Data c h w t.data, .interleaved⟩, 0)
    | none => .error .shapeError
  else if t.fmt = .onnxTensor ∧ target = .interleaved then
    match shape4? t.shape with
    | some (n, c, h, w) =>
        if (h = 1 ∧ w = 1) ∨ c = 1 then
          .ok (⟨[n, h, w, c], t.data, .interleaved⟩, 0)
        else
          .ok (⟨[n, h, w, c], transpose0231Data c h w t.data, .interleaved⟩, 1)
    | none => .error .shapeError
  else if t.fmt = .interleaved ∧ target = .onnxTensor then
    match shape4? t.shape with
    | some (n, h, w, c) =>
        if (h = 1 ∧ w = 1) ∨ c = 1 then
          .ok (⟨[n, c, h, w], t.data, .onnxTensor⟩, 0)
        else
          .ok (⟨[n, c, h, w], transpose0312Data h w c t.data, .onnxTensor⟩, 1)
    | none => .error .shapeError
  else .error .unsupportedConversion

/-! ### Convolution padding selection (`op_conv`, lines 166-178) -/

/-- The data the padding branch of `op_conv` inspects: the `kernel_shape`,
`strides`, `dilations` and `pads` attribute tuples, and the (possibly
statically unknown, hence optional) spatial dimensions `x.shape[1]` and
`x.shape[2]` of the interleaved input. -/
structure ConvPadArgs where
  kernel : Nat × Nat
  strides : Nat × Nat
  dilations : Nat × Nat
  pads : Nat × Nat × Nat × Nat
  hIn : Option Nat
  wIn : Option Nat
  deriving DecidableEq, Repr

/-- The construction chosen for the convolution's padding. -/
inductive ConvPadChoice where
  /-- `padding='valid'`, no padding layer inserted. -/
  | validNoPad
  /-- `padding='same'`. -/
  | sameMode
  /-- `ZeroPadding2D(((pads[0], pads[2]), (pads[1], pads[3])))` inserted
  before the convolution, which then uses `padding='valid'`. -/
  | explicitPad (pads : Nat × Nat × Nat × Nat)
  deriving DecidableEq, Repr

/-- `not (x.shape[1] == None or x.shape[2] == None) and x.shape[1] % 2 == 1
and x.shape[2] % 2 == 1`: both spatial dimensions statically known and odd. -/
def oddStatic : Option Nat → Option Nat → Bool
  | some hh, some ww => hh % 2 == 1 && ww % 2 == 1
  | _, _ => false

/-- Shallow embedding of the `if pads == (0,0,0,0): ... elif ... elif ...
else ...` chain of `op_conv` that selects the padding construction. -/
def convPadDecision (a : ConvPadArgs) : ConvPadChoice :=
  if a.pads = (0, 0, 0, 0) then .validNoPad
  else if a.kernel.1 = a.kernel.2 ∧ a.pads.1 = a.pads.2.1 ∧
      a.pads.2.1 = a.pads.2.2.1 ∧ a.pads.2.2.1 = a.pads.2.2.2 ∧
      a.pads.1 * 2 + 1 = a.kernel.1 ∧ a.strides = (1, 1) ∧
      a.dilations = (1, 1) then .sameMode
  else if a.kernel = (3, 3) ∧ a.pads = (1, 1, 1, 1) ∧ a.strides = (2, 2) ∧
      a.dilations = (1, 1) ∧ oddStatic a.hIn a.wIn = true then .sameMode
  else .explicitPad a.pads

/-! ### Transposed convolution (`op_convtranspose`, lines 256-326) -/

/-- The arguments of `op_convtranspose` that determine its shape arithmetic
and its structural decomposition, for the supported 2-D case
(`len(kernel_shape) == 2`): the interleaved input's spatial dimensions, the
weight tensor's shape in the exchange format's
`(in_channels, out_channels, kH, kW)` convention, and the attributes. -/
structure ConvTArgs where
  hIn : Nat
  wIn : Nat
  weightsShape : Nat × Nat × Nat × Nat
  kernel : Nat × Nat
  strides : Nat × Nat
  pads : Nat × Nat × Nat × Nat
  dilations : Nat × Nat
  group : Nat
  outputPadding : Int × Int
  deriving DecidableEq, Repr

/-- The Keras padding mode passed to `Conv2DTranspose`. -/
inductive CTPadMode where
  | valid
  | same
  deriving DecidableEq, Repr

/-- The structure of the transposed convolution the source constructs. -/
inductive CTConstruction where
  /-- `group == 1`: a single `Conv2DTranspose` layer. -/
  | single (padding : CTPadMode) (outPad : Option (Int × Int))
  /-- `group > 1`: `tf.split(x, group, axis=-1)`, one `Conv2DTranspose` per
  split fed with the weight slice `weights[:, :, :, i*n:(i+1)*n]` and the
  bias slice `bias[i*n:(i+1)*n]` (slice width `n`), and the per-split
  outputs joined with `tf.concat(convolved_splits, -1)` along the channel
  axis. -/
  | grouped (g : Nat) (sliceWidth : Nat) (padding : CTPadMode)
      (outPad : Option (Int × Int))
  deriving DecidableEq, Repr

/-- `h_out = (h_in - 1) * strides[0] - 2 * pads[0] + dilations[0] *
(kernel_shape[0] - 1) + 1 + output_padding[0]`. -/
def ctHOut (a : ConvTArgs) : Int :=
  ((a.hIn : Int) - 1) * a.strides.1 - 2 * a.pads.1 +
    (a.dilations.1 : Int) * ((a.kernel.1 : Int) - 1) + 1 + a.outputPadding.1

/-- `w_out = (w_in - 1) * strides[1] - 2 * pads[1] + dilations[1] *
(kernel_shape[1] - 1) + 1 + output_padding[1]`. -/
def ctWOut (a : ConvTArgs) : Int :=
  ((a.wIn : Int) - 1) * a.strides.2 - 2 * a.pads.2.1 +
    (a.dilations.2 : Int) * ((a.kernel.2 : Int) - 1) + 1 + a.outputPadding.2

/-- The padding branch of `op_convtranspose`: `valid` for all-zero pads,
`same` (with `output_padding = None`, since it overrides the padding
argument in Keras) when the computed sizes match `stride * in`, otherwise
`NotImplementedError`. -/
def ctPadChoice (a : ConvTArgs) :
    Except TranslationError (CTPadMode × Option (Int × Int)) :=
  if a.pads = (0, 0, 0, 0) then .ok (.valid, some a.outputPadding)
  else if ctHOut a = a.strides.1 * a.hIn ∧ ctWOut a = a.strides.2 * a.wIn ∧
      a.outputPadding = (0, 0) then .ok (.same, none)
  else .error .notImplemented

/-- The structural branch of `op_convtranspose`: a single `Conv2DTranspose`
when `group == 1`, otherwise `n = weights.shape[3] // group` channel splits
(after the `(2, 3, 1, 0)` transpose the last weight axis is the exchange
format's `in_channels` axis), guarded by `assert group * n ==
weights.shape[3]`. -/
def ctBuild (a : ConvTArgs) (pm : CTPadMode) (op : Option (Int × Int)) :
    Except TranslationError CTConstruction :=
  if a.group = 1 then .ok (.single pm op)
  else if a.group = 0 then .error .zeroDivisionError
  else if a.group * (a.weightsShape.1 / a.group) ≠ a.weightsShape.1 then
    .error .assertionError
  else .ok (.grouped a.group (a.weightsShape.1 / a.group) pm op)

/-- Shallow embedding of the 2-D branch of `op_convtranspose`.  `actualH`
and `actualW` are the spatial dimensions `out.shape[1]` and `out.shape[2]`
of the output actually constructed by the backend, against which the source
asserts its analytically computed sizes.  On success the computed
`(h_out, w_out)` pair is returned together with the construction. -/
def op_convtranspose (a : ConvTArgs) (actualH actualW : Int) :
    Except TranslationError (CTConstruction × Int × Int) :=
  -- assert kernel_shape == weights.shape[2:4]
  if (a.weightsShape.2.2.1, a.weightsShape.2.2.2) ≠ a.kernel then
    .error .assertionError
  else
    match ctPadChoice a with
    | .error e => .error e
    | .ok (pm, op) =>
      match ctBuild a pm op with
      | .error e => .error e
      | .ok c =>
        -- assert out.shape[1] == h_out; assert out.shape[2] == w_out
        if actualH = ctHOut a ∧ actualW = ctWOut a then
          .ok (c, ctHOut a, ctWOut a)
        else .error .assertionError

/-! ### Pooling (`op_maxpool` lines 225-240, `op_averagepool` lines 409-421) -/

/-- The construction chosen for a pooling operator's padding. -/
inductive PoolConstruction where
  /-- The pooling primitive applied directly with `padding='valid'`. -/
  | direct
  /-- `ZeroPadding2D(((pads[0], pads[2]), (pads[1], pads[3])))` inserted
  before the pooling primitive, which then uses `padding='valid'`. -/
  | padThenPool (pads : Nat × Nat × Nat × Nat)
  deriving DecidableEq, Repr

/-- Shallow embedding of `op_maxpool(x, kernel_shape, pads, strides,
ceil_mode)`, tracking the padding construction. -/
def op_maxpool (x : Tensor) (kernelShape : List Nat)
    (pads : Nat × Nat × Nat × Nat) (ceilMode : Nat) :
    Except TranslationError PoolConstruction :=
  if ceilMode ≠ 0 then .error .assertionError
  else if kernelShape.length = 2 then
    match ensure_data_format x .interleaved with
    | .error e => .error e
    | .ok _ =>
      if pads = (0, 0, 0, 0) then .ok .direct
      else .ok (.padThenPool pads)
  else .error .notImplemented

/-- Shallow embedding of `op_averagepool(x, kernel_shape, pads, strides,
ceil_mode)`, tracking the padding construction. -/
def op_averagepool (x : Tensor) (_kernelShape : List Nat)
    (pads : Nat × Nat × Nat × Nat) (ceilMode : Nat) :
    Except TranslationError PoolConstruction :=
  match ensure_data_format x .interleaved with
  | .error e => .error e
  | .ok (x', _) =>
    if ceilMode ≠ 0 then .error .assertionError
    else if x'.shape.length = 4 then
      if pads = (0, 0, 0, 0) then .ok .direct
      else .error .notImplemented
    else .error .notImplemented

/-! ### Shape operator (`op_shape`, lines 476-481) -/

/-- `make_constant(shape)`: a rank-1 `Constant` holding the given integers. -/
def constOfList (l : List Nat) : Tensor :=
  ⟨[l.length], fun k => ((l.getD k 0 : Nat) : Int), .onnxConstant⟩

/-- Shallow embedding of `op_shape(x)`: the list of output tensors the
operator returns. -/
def op_shape (x : Tensor) : Except TranslationError (List Tensor) :=
  if x.fmt = .interleaved then
    match shape4? x.shape with
    | some (n, h, w, f) => .ok [constOfList [n, f, h, w]]
    | none => .error .valueError
  else .ok [constOfList x.shape]

/-! ### Slice on constants (`op_slice`, lines 440-448) -/

/-- The dynamic value of the `axes` variable in `op_slice`: either the tuple
supplied as an attribute or the `range` object produced by the default
`axes = range(len(starts))`. -/
inductive PyAxes where
  | tup (l : List Int)
  | rng (n : Nat)
  deriving DecidableEq, Repr

/-- Python's `axes == (0,)`: tuple equality is elementwise, and a `range`
object never compares equal to a `tuple`. -/
def pyAxesEqTuple0 : PyAxes → Bool
  | .tup l => decide (l = [0])
  | .rng _ => false

/-- Shallow embedding of the `x.data_format is OnnxConstant` branch of
`op_slice`.  On success it returns the triple
`(starts[0], ends[0], steps[0])` handed to the host slicing expression
`x[starts[0]:ends[0]:steps[0]]`. -/
def op_slice_const (starts ends : List Int) (axes : Option (List Int))
    (steps : Option (List Int)) :
    Except TranslationError (Int × Int × Int) :=
  let ax : PyAxes := match axes with
    | none => .rng starts.length
    | some l => .tup l
  let st : List Int := match steps with
    | none => List.replicate starts.length 1
    | some l => l
  if pyAxesEqTuple0 ax then
    match starts, ends, st with
    | s0 :: _, e0 :: _, t0 :: _ => .ok (s0, e0, t0)
    | _, _, _ => .error .indexError
  else .error .notImplemented

/-! ### Operator dispatch (`Operations.make_op`, lines 12-18) and the graph
translation driver (`onnx2keras`, lines 658-685).

Dispatch in the source is `getattr(self, 'op_' + op_type.lower())`: the set
of resolvable attribute names is exactly the `op_*` methods defined on
`TfKerasOperations`.  The operator bodies themselves are abstracted as a
function `impl` from the (lowercased) operator name, positional tensor
inputs and decoded attributes to an output list — the driver-level claims
quantify over it. -/

/-- The lowercased names of every `op_*` method of `TfKerasOperations`. -/
def supportedOps : List String :=
  ["conv", "relu", "leakyrelu", "sigmoid", "softmax", "prelu", "maxpool",
   "concat", "convtranspose", "batchnormalization", "unsqueeze", "clip",
   "add", "sub", "reducemean", "gemm", "pad", "averagepool",
   "globalaveragepool", "flatten", "slice", "constant", "shape", "gather",
   "cast", "mul", "floor", "div", "upsample", "resize", "equal", "and",
   "greater", "reshape", "transpose", "matmul", "sqrt", "abs", "neg"]

/-- ASCII lowercasing of one character (operator-type names are ASCII, so
this matches Python's `str.lower` on them). -/
def charLower (ch : Char) : Char :=
  if 65 ≤ ch.toNat ∧ ch.toNat ≤ 90 then Char.ofNat (ch.toNat + 32) else ch

/-- `op_type.lower()` on ASCII operator-type names. -/
def strLower (s : String) : String :=
  ⟨s.data.map charLower⟩

/-- The type of abstracted operator implementations: lowercased operator
name, positional inputs, decoded attributes, resulting output tensors. -/
abbrev OpImpl (A : Type) : Type :=
  String → List Tensor → A → Except TranslationError (List Tensor)

/-- Shallow embedding of `Operations.make_op(op_type, inputs, attrs)`:
resolve `'op_' + op_type.lower()` and call it, or fail with the
`AttributeError` naming the missing attribute. -/
def make_op {A : Type} (impl : OpImpl A) (opType : String)
    (inputs : List Tensor) (attrs : A) :
    Except TranslationError (List Tensor) :=
  if supportedOps.contains (strLower opType) then
    impl (strLower opType) inputs attrs
  else .error (.unsupportedOperator ("op_" ++ strLower opType))

/-- One node of the exchange-format graph: operator type name, ordered
input-name references, ordered output names, decoded attributes. -/
structure Node (A : Type) where
  opType : String
  inputs : List String
  outputs : List String
  attrs : A

/-- The environment `tensors`: a mapping from tensor names to tensors. -/
abbrev Env : Type := String → Option Tensor

/-- Pointwise update `tensors[n] = t`. -/
def Env.update (env : Env) (n : String) (t : Tensor) : Env :=
  fun m => if m = n then some t else env m

/-- `inputs = [tensors[i] for i in node.input]`; an unbound name raises
`KeyError`. -/
def resolveInputs (env : Env) : List String →
    Except TranslationError (List Tensor)
  | [] => .ok []
  | n :: ns =>
    match env n with
    | none => .error (.nameError n)
    | some t =>
      match resolveInputs env ns with
      | .error e => .error e
      | .ok ts => .ok (t :: ts)

/-- `for n, t in zip(node.output, output_tensors): tensors[n] = t`. -/
def bindOutputs (env : Env) : List String → List Tensor → Env
  | n :: ns, t :: ts => bindOutputs (env.update n t) ns ts
  | _, _ => env

/-- One iteration of the driver's node loop: resolve the inputs, decode and
dispatch, check `assert len(output_tensors) == len(node.output)`, and bind
the outputs. -/
def runNode {A : Type} (impl : OpImpl A) (env : Env) (node : Node A) :
    Except TranslationError Env :=
  match resolveInputs env node.inputs with
  | .error e => .error e
  | .ok ins =>
    match make_op impl node.opType ins node.attrs with
    | .error e => .error e
    | .ok outs =>
      if outs.length = node.outputs.length then
        .ok (bindOutputs env node.outputs outs)
      else .error .graphIntegrityError

/-- The driver's node loop over the whole graph: any failure aborts the
translation. -/
def runNodes {A : Type} (impl : OpImpl A) :
    Env → List (Node A) → Except TranslationError Env
  | env, [] => .ok env
  | env, node :: rest =>
    match runNode impl env node with
    | .error e => .error e
    | .ok env' => runNodes impl env' rest

/-! ### Helper lemmas -/

/-- Taking the remainder after appending a digit `r < b` recovers the
digit. -/
theorem natMulAddMod (X r b : Nat) (hr : r < b) : (X * b + r) % b = r := by
  rw [Nat.add_comm, Nat.add_mul_mod_self_right, Nat.mod_eq_of_lt hr]

/-- Dividing after appending a digit `r < b` recovers the prefix. -/
theorem natMulAddDiv (X r b : Nat) (hb : 0 < b) (hr : r < b) :
    (X * b + r) / b = X := by
  rw [Nat.add_comm, Nat.add_mul_div_right _ _ hb, Nat.div_eq_of_lt hr,
    Nat.zero_add]

/-- The axis permutation `(0, 3, 1, 2)` undoes `(0, 2, 3, 1)` on the flat
data of a rank-4 tensor with positive trailing dimensions. -/
theorem transpose_comp_data (c h w : Nat) (d : Nat → Int) (k : Nat)
    (hc : 0 < c) (hh : 0 < h) (hw : 0 < w) :
    transpose0312Data h w c (transpose0231Data c h w d) k = d k := by
  have hm3 : k % w < w := Nat.mod_lt _ hw
  have hm2 : k / w % h < h := Nat.mod_lt _ hh
  have hm1 : k / w / h % c < c := Nat.mod_lt _ hc
  show transpose0231Data c h w d
      (flat4 h w c (k / w / h / c) (k / w % h) (k % w) (k / w / h % c)) = d k
  show d (flat4 c h w
      (flat4 h w c (k / w / h / c) (k / w % h) (k % w) (k / w / h % c)
        / c / w / h)
      (flat4 h w c (k / w / h / c) (k / w % h) (k % w) (k / w / h % c) % c)
      (flat4 h w c (k / w / h / c) (k / w % h) (k % w) (k / w / h % c)
        / c / w % h)
      (flat4 h w c (k / w / h / c) (k / w % h) (k % w) (k / w / h % c)
        / c % w)) = d k
  congr 1
  simp only [flat4]
  rw [natMulAddMod _ _ _ hm1, natMulAddDiv _ _ _ hc hm1]
  rw [natMulAddMod _ _ _ hm3, natMulAddDiv _ _ _ hw hm3]
  rw [natMulAddMod _ _ _ hm2, natMulAddDiv _ _ _ hh hm2]
  have e1 : k / w / h / c * c + k / w / h % c = k / w / h := by
    rw [Nat.mul_comm (k / w / h / c) c, Nat.div_add_mod]
  rw [e1]
  have e2 : k / w / h * h + k / w % h = k / w := by
    rw [Nat.mul_comm (k / w / h) h, Nat.div_add_mod]
  rw [e2]
  rw [Nat.mul_comm (k / w) w, Nat.div_add_mod]

/-- A list whose length is not 4 fails the rank-4 unpacking. -/
theorem shape4?_eq_none : ∀ (l : List Nat), l.length ≠ 4 → shape4? l = none
  | [], _ => rfl
  | [_], _ => rfl
  | [_, _], _ => rfl
  | [_, _, _], _ => rfl
  | [_, _, _, _], hlen => absurd rfl hlen
  | _ :: _ :: _ :: _ :: _ :: _, _ => rfl

/-- `Generic → Interleaved` on a degenerate 4-D tensor: pure reshape, no
warning. -/
theorem ensure_g2i_degenerate (n c h w : Nat) (d : Nat → Int)
    (hP : (h = 1 ∧ w = 1) ∨ c = 1) :
    ensure_data_format ⟨[n, c, h, w], d, .onnxTensor⟩ .interleaved =
      .ok (⟨[n, h, w, c], d, .interleaved⟩, 0) := by
  show (if (h = 1 ∧ w = 1) ∨ c = 1 then
      (.ok (⟨[n, h, w, c], d, .interleaved⟩, 0) :
        Except TranslationError (Tensor × Nat))
    else .ok (⟨[n, h, w, c], transpose0231Data c h w d, .interleaved⟩, 1)) =
    .ok (⟨[n, h, w, c], d, .interleaved⟩, 0)
  rw [if_pos hP]

/-- `Generic → Interleaved` on a non-degenerate 4-D tensor: axis
permutation, one warning. -/
theorem ensure_g2i_transpose (n c h w : Nat) (d : Nat → Int)
    (hP : ¬((h = 1 ∧ w = 1) ∨ c = 1)) :
    ensure_data_format ⟨[n, c, h, w], d, .onnxTensor⟩ .interleaved =
      .ok (⟨[n, h, w, c], transpose0231Data c h w d, .interleaved⟩, 1) := by
  show (if (h = 1 ∧ w = 1) ∨ c = 1 then
      (.ok (⟨[n, h, w, c], d, .interleaved⟩, 0) :
        Except TranslationError (Tensor × Nat))
    else .ok (⟨[n, h, w, c], transpose0231Data c h w d, .interleaved⟩, 1)) =
    .ok (⟨[n, h, w, c], transpose0231Data c h w d, .interleaved⟩, 1)
  rw [if_neg hP]

/-- `Interleaved → Generic` on a degenerate 4-D tensor: pure reshape, no
warning. -/
theorem ensure_i2g_degenerate (n h w c : Nat) (d : Nat → Int)
    (hP : (h = 1 ∧ w = 1) ∨ c = 1) :
    ensure_data_format ⟨[n, h, w, c], d, .interleaved⟩ .onnxTensor =
      .ok (⟨[n, c, h, w], d, .onnxTensor⟩, 0) := by
  show (if (h = 1 ∧ w = 1) ∨ c = 1 then
      (.ok (⟨[n, c, h, w], d, .onnxTensor⟩, 0) :
        Except TranslationError (Tensor × Nat))
    else .ok (⟨[n, c, h, w], transpose0312Data h w c d, .onnxTensor⟩, 1)) =
    .ok (⟨[n, c, h, w], d, .onnxTensor⟩, 0)
  rw [if_pos hP]

/-- `Interleaved → Generic` on a non-degenerate 4-D tensor: axis
permutation, one warning. -/
theorem ensure_i2g_transpose (n h w c : Nat) (d : Nat → Int)
    (hP : ¬((h = 1 ∧ w = 1) ∨ c = 1)) :
    ensure_data_format ⟨[n, h, w, c], d, .interleaved⟩ .onnxTensor =
      .ok (⟨[n, c, h, w], transpose0312Data h w c d, .onnxTensor⟩, 1) := by
  show (if (h = 1 ∧ w = 1) ∨ c = 1 then
      (.ok (⟨[n, c, h, w], d, .onnxTensor⟩, 0) :
        Except TranslationError (Tensor × Nat))
    else .ok (⟨[n, c, h, w], transpose0312Data h w c d, .onnxTensor⟩, 1)) =
    .ok (⟨[n, c, h, w], transpose0312Data h w c d, .onnxTensor⟩, 1)
  rw [if_neg hP]

/-! ### Claim theorems -/

/-- C2: for every 4-D tensor in the `Generic` (`OnnxTensor`) layout,
converting to `Interleaved` and converting the result back to `Generic`
yields a tensor numerically identical to the original — the permutation
`(0,2,3,1)` composed with `(0,3,1,2)` is the identity, and in the degenerate
case (`h = w = 1` or `c = 1`) the two reshapes also compose to the
identity. -/
theorem layout_round_trip (n c h w : Nat) (d : Nat → Int) :
    ∃ u wu v wv,
      ensure_data_format ⟨[n, c, h, w], d, .onnxTensor⟩ .interleaved =
        .ok (u, wu) ∧
      ensure_data_format u .onnxTensor = .ok (v, wv) ∧
      v.shape = [n, c, h, w] ∧ v.fmt = .onnxTensor ∧
      ∀ k, k < n * c * h * w → v.data k = d k := by
  by_cases hP : (h = 1 ∧ w = 1) ∨ c = 1
  · exact ⟨_, _, _, _, ensure_g2i_degenerate n c h w d hP,
      ensure_i2g_degenerate n h w c d hP, rfl, rfl, fun k _ => rfl⟩
  · refine ⟨_, _, _, _, ensure_g2i_transpose n c h w d hP,
      ensure_i2g_transpose n h w c (transpose0231Data c h w d) hP, rfl, rfl,
      fun k hk => ?_⟩
    have hprod : 0 < n * c * h * w := Nat.lt_of_le_of_lt (Nat.zero_le k) hk
    have hc : 0 < c := by
      rcases Nat.eq_zero_or_pos c with h0 | h1
      · subst h0; simp at hprod
      · exact h1
    have hh : 0 < h := by
      rcases Nat.eq_zero_or_pos h with h0 | h1
      · subst h0; simp at hprod
      · exact h1
    have hw : 0 < w := by
      rcases Nat.eq_zero_or_pos w with h0 | h1
      · subst h0; simp at hprod
      · exact h1
    exact transpose_comp_data c h w d k hc hh hw

/-- C2 witness: the round trip instantiated on a concrete 2×2×2×2 tensor. -/
theorem layout_round_trip_witness :
    ∃ u wu v wv,
      ensure_data_format ⟨[2, 2, 2, 2], fun k => (k : Int), .onnxTensor⟩
        .interleaved = .ok (u, wu) ∧
      ensure_data_format u .onnxTensor = .ok (v, wv) ∧
      v.shape = [2, 2, 2, 2] ∧ v.fmt = .onnxTensor ∧
      ∀ k, k < 2 * 2 * 2 * 2 → v.data k = (k : Int) :=
  layout_round_trip 2 2 2 2 (fun k => (k : Int))

/-- C4: a `Generic → Interleaved` conversion of a 4-D tensor with
`h = w = 1` or `c = 1` takes the pure-reshape path (same flat data) and
emits no `OptimizationMissingWarning`; every other 4-D `Generic` tensor is
axis-permuted and exactly one such warning is emitted. -/
theorem interleave_warning_behavior (n c h w : Nat) (d : Nat → Int) :
    ((h = 1 ∧ w = 1) ∨ c = 1 →
      ensure_data_format ⟨[n, c, h, w], d, .onnxTensor⟩ .interleaved =
        .ok (⟨[n, h, w, c], d, .interleaved⟩, 0)) ∧
    (¬((h = 1 ∧ w = 1) ∨ c = 1) →
      ensure_data_format ⟨[n, c, h, w], d, .onnxTensor⟩ .interleaved =
        .ok (⟨[n, h, w, c], transpose0231Data c h w d, .interleaved⟩, 1)) :=
  ⟨ensure_g2i_degenerate n c h w d, ensure_g2i_transpose n c h w d⟩

/-- C4 witness: both branches at concrete tensors — a `c = 1` tensor
converts warning-free with unchanged data, a `c = 2` tensor is transposed
with one warning. -/
theorem interleave_warning_behavior_witness :
    ensure_data_format ⟨[1, 1, 3, 3], fun k => (k : Int), .onnxTensor⟩
      .interleaved = .ok (⟨[1, 3, 3, 1], fun k => (k : Int), .interleaved⟩, 0) ∧
    ensure_data_format ⟨[1, 2, 3, 3], fun k => (k : Int), .onnxTensor⟩
      .interleaved =
      .ok (⟨[1, 3, 3, 2], transpose0231Data 2 3 3 (fun k => (k : Int)),
        .interleaved⟩, 1) :=
  ⟨(interleave_warning_behavior 1 1 3 3 (fun k => (k : Int))).1 (Or.inr rfl),
   (interleave_warning_behavior 1 2 3 3 (fun k => (k : Int))).2 (by decide)⟩

/-- C5: `ensure_data_format` fails with the rank error (`ShapeError`) when a
`Constant → Interleaved`, `Generic → Interleaved` or
`Interleaved → Generic` conversion is requested on a tensor of rank other
than 4, and fails with `UnsupportedConversion` for every direction pair not
in the conversion table (a non-constant source and the `Constant` target). -/
theorem conversion_error_classification :
    (∀ t : Tensor, t.shape.length ≠ 4 →
      ((t.fmt = .onnxConstant ∨ t.fmt = .onnxTensor) →
        ensure_data_format t .interleaved = .error .shapeError) ∧
      (t.fmt = .interleaved →
        ensure_data_format t .onnxTensor = .error .shapeError)) ∧
    (∀ (t : Tensor) (target : Fmt),
      t.fmt.issubclass target = false →
      ¬(t.fmt = .onnxConstant ∧ target = .interleaved) →
      ¬(t.fmt = .onnxTensor ∧ target = .interleaved) →
      ¬(t.fmt = .interleaved ∧ target = .onnxTensor) →
      ensure_data_format t target = .error .unsupportedConversion) := by
  constructor
  · rintro ⟨s, d, f⟩ hlen
    have h4 : shape4? s = none := shape4?_eq_none s hlen
    constructor
    · rintro (h | h) <;> simp only at h <;> subst h <;>
        simp [ensure_data_format, Fmt.issubclass, h4]
    · intro h; simp only at h; subst h
      simp [ensure_data_format, Fmt.issubclass, h4]
  · intro t target h0 h1 h2 h3
    unfold ensure_data_format
    simp only [h0, Bool.false_eq_true, if_false]
    rw [if_neg h1, if_neg h2, if_neg h3]

/-- C5 witness: a rank-2 constant requested as `Interleaved` hits the rank
error, and an `Interleaved → Constant` request hits the unsupported-pair
error. -/
theorem conversion_error_classification_witness :
    ensure_data_format ⟨[2, 2], fun _ => 0, .onnxConstant⟩ .interleaved =
      .error .shapeError ∧
    ensure_data_format ⟨[1, 1, 1, 1], fun _ => 0, .interleaved⟩ .onnxConstant =
      .error .unsupportedConversion :=
  ⟨(conversion_error_classification.1 ⟨[2, 2], fun _ => 0, .onnxConstant⟩
      (by decide)).1 (Or.inl rfl),
   conversion_error_classification.2 ⟨[1, 1, 1, 1], fun _ => 0, .interleaved⟩
      .onnxConstant rfl (by decide) (by decide) (by decide)⟩

/-- C1: the padding construction of a convolution node is a deterministic
four-way decision on `(kernel_shape, strides, dilations, pads, input
spatial shape)`: all-zero pads give valid mode with no padding layer; a
square kernel with all four pads equal, `pads[0] * 2 + 1 ==
kernel_shape[0]`, unit strides and unit dilations gives same mode; a 3×3
kernel with pads `(1,1,1,1)`, strides `(2,2)`, unit dilations and
statically known odd input height and width gives same mode; every other
combination gives an explicit zero-padding layer followed by valid-mode
convolution; and equal inputs always produce the same choice. -/
theorem conv_padding_four_way (a : ConvPadArgs) :
    (a.pads = (0, 0, 0, 0) → convPadDecision a = .validNoPad) ∧
    (a.pads ≠ (0, 0, 0, 0) →
      (a.kernel.1 = a.kernel.2 ∧ a.pads.1 = a.pads.2.1 ∧
        a.pads.2.1 = a.pads.2.2.1 ∧ a.pads.2.2.1 = a.pads.2.2.2 ∧
        a.pads.1 * 2 + 1 = a.kernel.1 ∧ a.strides = (1, 1) ∧
        a.dilations = (1, 1)) →
      convPadDecision a = .sameMode) ∧
    (a.pads ≠ (0, 0, 0, 0) →
      ¬(a.kernel.1 = a.kernel.2 ∧ a.pads.1 = a.pads.2.1 ∧
        a.pads.2.1 = a.pads.2.2.1 ∧ a.pads.2.2.1 = a.pads.2.2.2 ∧
        a.pads.1 * 2 + 1 = a.kernel.1 ∧ a.strides = (1, 1) ∧
        a.dilations = (1, 1)) →
      (a.kernel = (3, 3) ∧ a.pads = (1, 1, 1, 1) ∧ a.strides = (2, 2) ∧
        a.dilations = (1, 1) ∧ oddStatic a.hIn a.wIn = true) →
      convPadDecision a = .sameMode) ∧
    (a.pads ≠ (0, 0, 0, 0) →
      ¬(a.kernel.1 = a.kernel.2 ∧ a.pads.1 = a.pads.2.1 ∧
        a.pads.2.1 = a.pads.2.2.1 ∧ a.pads.2.2.1 = a.pads.2.2.2 ∧
        a.pads.1 * 2 + 1 = a.kernel.1 ∧ a.strides = (1, 1) ∧
        a.dilations = (1, 1)) →
      ¬(a.kernel = (3, 3) ∧ a.pads = (1, 1, 1, 1) ∧ a.strides = (2, 2) ∧
        a.dilations = (1, 1) ∧ oddStatic a.hIn a.wIn = true) →
      convPadDecision a = .explicitPad a.pads) ∧
    (∀ b, a = b → convPadDecision a = convPadDecision b) := by
  refine ⟨?_, ?_, ?_, ?_, ?_⟩
  · intro h1; unfold convPadDecision; rw [if_pos h1]
  · intro h1 h2; unfold convPadDecision; rw [if_neg h1, if_pos h2]
  · intro h1 h2 h3; unfold convPadDecision
    rw [if_neg h1, if_neg h2, if_pos h3]
  · intro h1 h2 h3; unfold convPadDecision
    rw [if_neg h1, if_neg h2, if_neg h3]
  · rintro b rfl; rfl

/-- C1 witness: a 3×3 kernel-radius padding with unit stride picks same
mode, and a 5×5 kernel with padding 1 falls through to the explicit
zero-padding branch. -/
theorem conv_padding_four_way_witness :
    convPadDecision ⟨(3, 3), (1, 1), (1, 1), (1, 1, 1, 1), none, none⟩ =
      .sameMode ∧
    convPadDecision ⟨(5, 5), (1, 1), (1, 1), (1, 1, 1, 1), none, none⟩ =
      .explicitPad (1, 1, 1, 1) :=
  ⟨(conv_padding_four_way ⟨(3, 3), (1, 1), (1, 1), (1, 1, 1, 1), none,
      none⟩).2.1 (by decide) (by decide),
   (conv_padding_four_way ⟨(5, 5), (1, 1), (1, 1), (1, 1, 1, 1), none,
      none⟩).2.2.2.1 (by decide) (by decide) (by decide)⟩

/-- Binding outputs never touches a name outside the output list. -/
theorem bindOutputs_not_mem (k : String) :
    ∀ (names : List String) (ts : List Tensor) (env : Env),
      k ∉ names → bindOutputs env names ts k = env k
  | [], ts, _, _ => by cases ts <;> rfl
  | _ :: _, [], _, _ => rfl
  | n :: ns, t :: ts, env, hk => by
    have hkn : k ≠ n := fun h => hk (h ▸ List.mem_cons_self n ns)
    have hkns : k ∉ ns := fun h => hk (List.mem_cons_of_mem n h)
    show bindOutputs (env.update n t) ns ts k = env k
    rw [bindOutputs_not_mem k ns ts (env.update n t) hkns]
    show (if k = n then some t else env k) = env k
    rw [if_neg hkn]

/-- With pairwise-distinct output names and matching lengths, binding the
outputs makes the `i`-th name resolve to the `i`-th tensor. -/
theorem bindOutputs_get :
    ∀ (names : List String) (ts : List Tensor) (env : Env),
      names.Nodup → names.length = ts.length →
      ∀ i (hi : i < names.length),
        bindOutputs env names ts (names.get ⟨i, hi⟩) = ts.get? i
  | [], _, _, _, _, _, hi => absurd hi (by simp)
  | _ :: _, [], _, _, hlen, _, _ => by simp at hlen
  | n :: ns, t :: ts, env, hnd, _, 0, _ => by
    have hn : n ∉ ns := (List.nodup_cons.mp hnd).1
    show bindOutputs (env.update n t) ns ts n = some t
    rw [bindOutputs_not_mem n ns ts (env.update n t) hn]
    show (if n = n then some t else env n) = some t
    rw [if_pos rfl]
  | n :: ns, t :: ts, env, hnd, hlen, i + 1, hi => by
    show bindOutputs (env.update n t) ns ts
      (ns.get ⟨i, Nat.lt_of_succ_lt_succ hi⟩) = ts.get? i
    exact bindOutputs_get ns ts (env.update n t) (List.nodup_cons.mp hnd).2
      (by simpa using hlen) i (Nat.lt_of_succ_lt_succ hi)

/-- C3: dispatching a node whose operator-type name has no registered
`op_*` implementation fails with the unsupported-operator error carrying
the (lowercased, attribute-mangled) operator name; the failure aborts the
whole translation rather than skipping the node; and the name lookup is
case-insensitive — `make_op` depends on the operator name only through its
lowercasing. -/
theorem unsupported_operator_dispatch :
    (∀ (s t : String), strLower s = strLower t →
      ∀ (A : Type) (impl : OpImpl A) (ins : List Tensor) (attrs : A),
        make_op impl s ins attrs = make_op impl t ins attrs) ∧
    (∀ (opType : String), supportedOps.contains (strLower opType) = false →
      (∀ (A : Type) (impl : OpImpl A) (ins : List Tensor) (attrs : A),
        make_op impl opType ins attrs =
          .error (.unsupportedOperator ("op_" ++ strLower opType))) ∧
      (∀ (A : Type) (impl : OpImpl A) (env : Env) (node : Node A)
          (rest : List (Node A)) (ins : List Tensor),
        node.opType = opType → resolveInputs env node.inputs = .ok ins →
        runNodes impl env (node :: rest) =
          .error (.unsupportedOperator ("op_" ++ strLower opType)))) := by
  constructor
  · intro s t hst A impl ins attrs
    unfold make_op
    rw [hst]
  · intro opType hop
    have herr : ∀ (A : Type) (impl : OpImpl A) (ins : List Tensor)
        (attrs : A), make_op impl opType ins attrs =
          .error (.unsupportedOperator ("op_" ++ strLower opType)) := by
      intro A impl ins attrs
      unfold make_op
      rw [hop]
      rfl
    refine ⟨herr, ?_⟩
    intro A impl env node rest ins hname hres
    simp only [runNodes, runNode, hname, hres, herr]

/-- C3 witness: the operator name `Floop` has no implementation; its
dispatch and a one-node translation both fail with the error carrying
`op_floop`, the lowercased mangled name. -/
theorem unsupported_operator_dispatch_witness :
    make_op (fun _ _ _ => .error .notImplemented : OpImpl Unit) "Floop"
        [] () = .error (.unsupportedOperator "op_floop") ∧
    runNodes (fun _ _ _ => .error .notImplemented : OpImpl Unit)
        (fun _ => none) [⟨"Floop", [], ["y"], ()⟩] =
      .error (.unsupportedOperator "op_floop") :=
  ⟨(unsupported_operator_dispatch.2 "Floop" (by decide)).1 Unit
      (fun _ _ _ => .error .notImplemented) [] (),
   (unsupported_operator_dispatch.2 "Floop" (by decide)).2 Unit
      (fun _ _ _ => .error .notImplemented) (fun _ => none)
      ⟨"Floop", [], ["y"], ()⟩ [] [] rfl rfl⟩

/-- C6: for every dispatched node, an output list whose length differs from
the node's declared output count aborts the translation with the
graph-integrity error, and on success each declared output name is bound in
the environment to the corresponding returned tensor, in order. -/
theorem output_count_binding {A : Type} (impl : OpImpl A) (env : Env)
    (node : Node A) (ins outs : List Tensor)
    (hres : resolveInputs env node.inputs = .ok ins)
    (hop : make_op impl node.opType ins node.attrs = .ok outs) :
    (outs.length ≠ node.outputs.length →
      runNode impl env node = .error .graphIntegrityError ∧
      ∀ rest, runNodes impl env (node :: rest) =
        .error .graphIntegrityError) ∧
    (outs.length = node.outputs.length →
      runNode impl env node = .ok (bindOutputs env node.outputs outs) ∧
      (node.outputs.Nodup →
        ∀ i (hi : i < node.outputs.length),
          bindOutputs env node.outputs outs (node.outputs.get ⟨i, hi⟩) =
            outs.get? i)) := by
  have hrun : runNode impl env node =
      if outs.length = node.outputs.length then
        .ok (bindOutputs env node.outputs outs)
      else .error .graphIntegrityError := by
    simp only [runNode, hres, hop]
  constructor
  · intro hne
    refine ⟨by rw [hrun, if_neg hne], fun rest => ?_⟩
    show (match runNode impl env node with
      | Except.error e => Except.error e
      | Except.ok env' => runNodes impl env' rest) =
      .error .graphIntegrityError
    rw [hrun, if_neg hne]
  · intro heq
    exact ⟨by rw [hrun, if_pos heq],
      fun hnd i hi => bindOutputs_get node.outputs outs env hnd heq.symm i hi⟩

/-- C6 witness: a supported one-output node run against an implementation
returning one tensor binds the declared name to that tensor. -/
theorem output_count_binding_witness :
    runNode (fun _ _ _ => .ok [constOfList [7]] : OpImpl Unit)
        (fun _ => none) ⟨"Relu", [], ["y"], ()⟩ =
      .ok (bindOutputs (fun _ => none) ["y"] [constOfList [7]]) ∧
    bindOutputs (fun _ => none) ["y"] [constOfList [7]] "y" =
      [constOfList [7]].get? 0 := by
  have H := output_count_binding
    (fun _ _ _ => .ok [constOfList [7]] : OpImpl Unit) (fun _ => none)
    ⟨"Relu", [], ["y"], ()⟩ [] [constOfList [7]] rfl rfl
  exact ⟨(H.2 rfl).1, (H.2 rfl).2 (by decide) 0 (by decide)⟩

/-- C7: every successful 2-D transposed convolution computes its output
spatial size analytically as `out = (in - 1) * stride - 2 * pad + dilation
* (kernel - 1) + 1 + output_padding` per axis and asserts it equal to the
constructed output's actual size; `group == 1` builds a single transposed
convolution, and every `group > 1` is decomposed into `group` independent
transposed convolutions over channel splits, concatenated along the
channel axis. -/
theorem convtranspose_output_size_and_grouping (a : ConvTArgs)
    (actualH actualW : Int) (c : CTConstruction) (ho wo : Int)
    (hok : op_convtranspose a actualH actualW = .ok (c, ho, wo)) :
    ho = ((a.hIn : Int) - 1) * a.strides.1 - 2 * a.pads.1 +
        (a.dilations.1 : Int) * ((a.kernel.1 : Int) - 1) + 1 +
        a.outputPadding.1 ∧
    wo = ((a.wIn : Int) - 1) * a.strides.2 - 2 * a.pads.2.1 +
        (a.dilations.2 : Int) * ((a.kernel.2 : Int) - 1) + 1 +
        a.outputPadding.2 ∧
    actualH = ho ∧ actualW = wo ∧
    (a.group = 1 → ∃ pm op, c = .single pm op) ∧
    (1 < a.group → ∃ pm op n, c = .grouped a.group n pm op ∧
      a.group * n = a.weightsShape.1) := by
  unfold op_convtranspose at hok
  split at hok
  · exact absurd hok (by simp)
  split at hok
  · exact absurd hok (by simp)
  rename_i pm op heqPad
  split at hok
  · exact absurd hok (by simp)
  rename_i c' heqBuild
  split at hok
  case isFalse => exact absurd hok (by simp)
  case isTrue hcond =>
    simp only [Except.ok.injEq, Prod.mk.injEq] at hok
    obtain ⟨rfl, rfl, rfl⟩ := hok
    refine ⟨rfl, rfl, hcond.1, hcond.2, ?_, ?_⟩
    · intro hg
      unfold ctBuild at heqBuild
      rw [if_pos hg] at heqBuild
      exact ⟨pm, op, (Except.ok.inj heqBuild).symm⟩
    · intro hg
      unfold ctBuild at heqBuild
      rw [if_neg (by omega), if_neg (by omega)] at heqBuild
      split at heqBuild
      · exact absurd heqBuild (by simp)
      · rename_i hdiv
        exact ⟨pm, op, a.weightsShape.1 / a.group,
          (Except.ok.inj heqBuild).symm, not_ne_iff.mp hdiv⟩

/-- C7 witness: a group-2 transposed convolution on a 4×4 input with a 2×2
kernel, stride 2 and no padding is decomposed into 2 splits of width 2 and
its computed sizes 8×8 match the constructed output. -/
theorem convtranspose_output_size_and_grouping_witness :
    op_convtranspose ⟨4, 4, (4, 3, 2, 2), (2, 2), (2, 2), (0, 0, 0, 0),
        (1, 1), 2, (0, 0)⟩ 8 8 =
      .ok (.grouped 2 2 .valid (some (0, 0)), 8, 8) ∧
    ∃ pm op n, (CTConstruction.grouped 2 2 .valid (some (0, 0))) =
      .grouped 2 n pm op ∧ 2 * n = 4 := by
  have hok : op_convtranspose ⟨4, 4, (4, 3, 2, 2), (2, 2), (2, 2),
      (0, 0, 0, 0), (1, 1), 2, (0, 0)⟩ 8 8 =
      .ok (.grouped 2 2 .valid (some (0, 0)), 8, 8) := by rfl
  have H := convtranspose_output_size_and_grouping
    ⟨4, 4, (4, 3, 2, 2), (2, 2), (2, 2), (0, 0, 0, 0), (1, 1), 2, (0, 0)⟩
    8 8 (.grouped 2 2 .valid (some (0, 0))) 8 8 hok
  exact ⟨hok, H.2.2.2.2.2 (by decide)⟩

/-- C8 counterexample: average pooling with the non-zero explicit padding
`(1,1,1,1)` does **not** insert a zero-padding step — it raises
`NotImplementedError`. -/
theorem avgpool_nonzero_pad_counterexample :
    op_averagepool ⟨[1, 4, 4, 3], fun _ => 0, .interleaved⟩ [2, 2]
        (1, 1, 1, 1) 0 = .error .notImplemented := rfl

/-- C8 (amended): for max pooling, non-zero explicit padding is inserted as
a separate zero-padding step before a valid-mode pooling primitive and
all-zero padding uses the primitive directly in valid mode, with only the
2-D case supported; average pooling supports only the all-zero padding
(direct valid-mode pooling) and fails with `NotImplementedError` on any
non-zero padding, with only rank-4 input supported. -/
theorem pooling_padding_amended (x x' : Tensor) (wn : Nat)
    (hens : ensure_data_format x .interleaved = .ok (x', wn))
    (ks : List Nat) (pads : Nat × Nat × Nat × Nat) :
    (ks.length = 2 →
      (pads = (0, 0, 0, 0) → op_maxpool x ks pads 0 = .ok .direct) ∧
      (pads ≠ (0, 0, 0, 0) →
        op_maxpool x ks pads 0 = .ok (.padThenPool pads))) ∧
    (ks.length ≠ 2 → op_maxpool x ks pads 0 = .error .notImplemented) ∧
    (x'.shape.length = 4 →
      (pads = (0, 0, 0, 0) → op_averagepool x ks pads 0 = .ok .direct) ∧
      (pads ≠ (0, 0, 0, 0) →
        op_averagepool x ks pads 0 = .error .notImplemented)) ∧
    (x'.shape.length ≠ 4 →
      op_averagepool x ks pads 0 = .error .notImplemented) := by
  refine ⟨fun h2 => ⟨fun hp => ?_, fun hp => ?_⟩, fun h2 => ?_,
    fun h4 => ⟨fun hp => ?_, fun hp => ?_⟩, fun h4 => ?_⟩
  · simp [op_maxpool, hens, h2, hp]
  · have hp' : ¬pads = 0 := fun h => hp (by simpa using h)
    simp [op_maxpool, hens, h2, hp']
  · simp [op_maxpool, h2]
  · simp [op_averagepool, hens, h4, hp]
  · have hp' : ¬pads = 0 := fun h => hp (by simpa using h)
    simp [op_averagepool, hens, h4, hp']
  · simp [op_averagepool, hens, h4]

/-- C8 witness: on a rank-4 interleaved input with pads `(1,1,1,1)`, max
pooling inserts the zero-padding step while average pooling fails. -/
theorem pooling_padding_amended_witness :
    op_maxpool ⟨[1, 4, 4, 3], fun _ => 0, .interleaved⟩ [3, 3]
        (1, 1, 1, 1) 0 = .ok (.padThenPool (1, 1, 1, 1)) ∧
    op_averagepool ⟨[1, 4, 4, 3], fun _ => 0, .interleaved⟩ [3, 3]
        (1, 1, 1, 1) 0 = .error .notImplemented := by
  have H := pooling_padding_amended ⟨[1, 4, 4, 3], fun _ => 0, .interleaved⟩
    ⟨[1, 4, 4, 3], fun _ => 0, .interleaved⟩ 0 rfl [3, 3] (1, 1, 1, 1)
  exact ⟨(H.1 rfl).2 (by decide), (H.2.2.1 rfl).2 (by decide)⟩

/-- C9: the shape operator returns a single `Constant` holding the input's
shape; an `Interleaved` input of shape `(n, h, w, c)` has its result
reordered to the exchange-format order `[n, c, h, w]`, and any other layout
has its shape returned in stored order unchanged. -/
theorem shape_op_reorder (x : Tensor) :
    (x.fmt = .interleaved → ∀ n h w f, x.shape = [n, h, w, f] →
      op_shape x = .ok [constOfList [n, f, h, w]]) ∧
    (x.fmt ≠ .interleaved → op_shape x = .ok [constOfList x.shape]) ∧
    (∀ res, op_shape x = .ok res →
      res.length = 1 ∧ ∀ y ∈ res, y.fmt = .onnxConstant) := by
  obtain ⟨s, d, f⟩ := x
  refine ⟨?_, ?_, ?_⟩
  · intro hf n h w ff hs
    simp only at hf hs
    subst hf
    subst hs
    rfl
  · intro hf
    cases f
    · rfl
    · rfl
    · exact absurd rfl hf
  · intro res hres
    cases f
    · have h : op_shape ⟨s, d, .onnxTensor⟩ = .ok [constOfList s] := rfl
      rw [h] at hres
      obtain rfl := (Except.ok.inj hres).symm
      exact ⟨rfl, by intro y hy; simp at hy; subst hy; rfl⟩
    · have h : op_shape ⟨s, d, .onnxConstant⟩ = .ok [constOfList s] := rfl
      rw [h] at hres
      obtain rfl := (Except.ok.inj hres).symm
      exact ⟨rfl, by intro y hy; simp at hy; subst hy; rfl⟩
    · cases h4 : shape4? s with
      | none =>
        have h : op_shape ⟨s, d, .interleaved⟩ = .error .valueError := by
          show (match shape4? s with
            | some (n, h, w, f) => Except.ok [constOfList [n, f, h, w]]
            | none =>
                (Except.error .valueError :
                  Except TranslationError (List Tensor))) =
            .error .valueError
          rw [h4]
        rw [h] at hres
        exact absurd hres (by simp)
      | some q =>
        obtain ⟨n, hh, ww, ff⟩ := q
        have h : op_shape ⟨s, d, .interleaved⟩ =
            .ok [constOfList [n, ff, hh, ww]] := by
          show (match shape4? s with
            | some (n, h, w, f) => Except.ok [constOfList [n, f, h, w]]
            | none =>
                (Except.error .valueError :
                  Except TranslationError (List Tensor))) =
            .ok [constOfList [n, ff, hh, ww]]
          rw [h4]
        rw [h] at hres
        obtain rfl := (Except.ok.inj hres).symm
        exact ⟨rfl, by intro y hy; simp at hy; subst hy; rfl⟩

/-- C9 witness: an interleaved input of shape `(1, 2, 3, 4)` yields the
constant `[1, 4, 2, 3]`; a generic rank-2 input yields its shape
unchanged. -/
theorem shape_op_reorder_witness :
    op_shape ⟨[1, 2, 3, 4], fun _ => 0, .interleaved⟩ =
      .ok [constOfList [1, 4, 2, 3]] ∧
    op_shape ⟨[5, 6], fun _ => 0, .onnxTensor⟩ = .ok [constOfList [5, 6]] :=
  ⟨(shape_op_reorder ⟨[1, 2, 3, 4], fun _ => 0, .interleaved⟩).1 rfl
      1 2 3 4 rfl,
   (shape_op_reorder ⟨[5, 6], fun _ => 0, .onnxTensor⟩).2.1 (by decide)⟩

/-- C10: slicing a `Constant` with the `axes` parameter omitted always
fails with `NotImplementedError` — the defaulted `range` value never
compares equal to the tuple `(0,)` — and a constant slice reaches the
slicing path only when `axes` is supplied explicitly as exactly `(0,)`. -/
theorem slice_const_axes_default (starts ends : List Int)
    (steps : Option (List Int)) :
    op_slice_const starts ends none steps = .error .notImplemented ∧
    ∀ (axes : List Int) (r : Int × Int × Int),
      op_slice_const starts ends (some axes) steps = .ok r → axes = [0] := by
  constructor
  · rfl
  · intro axes r hok
    by_cases hax : axes = [0]
    · exact hax
    · exfalso
      have hfalse : pyAxesEqTuple0 (.tup axes) = false := by
        simp [pyAxesEqTuple0, hax]
      simp [op_slice_const, hfalse] at hok
/-- C10 witness: an omitted-`axes` constant slice fails, and an explicit
`axes == (0,)` slice succeeds (so the necessity direction is applied to a
genuine success). -/
theorem slice_const_axes_default_witness :
    op_slice_const [1] [5] none none = .error .notImplemented ∧
    ([0] : List Int) = [0] :=
  ⟨(slice_const_axes_default [1] [5] none).1,
   (slice_const_axes_default [0] [5] none).2 [0] (0, 5, 1) rfl⟩

end Onnx2Keras
